import Mathlib

/-!
Verification development for the TactiScore football-analytics pipeline.

Shallow embedding of the feature-generation / preprocessing / training /
versioning core:
  * `src/data_pipeline/processors/feature_generator.py`
  * `src/preprocessing/data_processing.py`
  * `src/ml/model.py`, `src/ml/ensemble_model.py`
  * `src/ml/model_versioning.py`, `src/database/models.py`

Conventions of the embedding:
  * Tables are `List` of row structures; pandas NaN-able derived columns are
    `Option` fields (`none` = NaN); raw numeric stats are `Rat` (the claims
    are about aggregation structure, not float rounding).
  * Dates are integer day indices; `dayofweek` is the index mod 7 (the
    particular weekday offset is immaterial to every claim).
  * Randomness (`DataFrame.sample`, `np.random.normal`) is passed in
    explicitly as lists of sampled indices and noise quadruples.
  * In-place pandas mutation (`df[col] = ...` on a function argument) is
    modelled by a separate `..._argEffect` definition giving the caller's
    view of its table after the call.
-/

namespace TactiScore

/-- A row of the preprocessing tables (`data_processing.py` schema:
columns date, team, opponent, venue, result, gf, ga, sh, sot, time, plus
derived columns).  Derived columns are `Option`-valued: `none` models a
pandas NaN / not-yet-assigned value; raw stat columns are plain `Rat`. -/
structure Row where
  date : Int
  team : String
  opponent : String
  venue : String
  result : String
  gf : Rat := 0
  ga : Rat := 0
  sh : Rat := 0
  sot : Rat := 0
  time : String := "15:00"
  team_code : Option Nat := none
  venue_code : Option Nat := none
  opp_code : Option Nat := none
  hour : Option Int := none
  day_code : Option Int := none
  target : Option Nat := none
  gf_rolling : Option Rat := none
  ga_rolling : Option Rat := none
  sh_rolling : Option Rat := none
  sot_rolling : Option Rat := none
  deriving DecidableEq, Repr, Inhabited

/-- A row of the `FeatureGenerator` tables
(`feature_generator.py` schema: goals_for / goals_against naming). -/
structure FgRec where
  date : Int
  team : String
  result : String
  goals_for : Rat := 0
  goals_against : Rat := 0
  deriving DecidableEq, Repr, Inhabited

/-- `features['points'] = features['result'].map({'W': 3, 'D': 1, 'L': 0})`
(feature_generator.py:50); any other result string maps to NaN. -/
def pointsOf (r : FgRec) : Option Rat :=
  if r.result = "W" then some 3
  else if r.result = "D" then some 1
  else if r.result = "L" then some 0
  else none

/-- Stable insertion of a record into a date-sorted list (used to model
`sort_values('date')` / `sort_values(['team','date'])` within one team). -/
def insertByDateFg (r : FgRec) : List FgRec → List FgRec
  | [] => [r]
  | x :: xs => if r.date ≤ x.date then r :: x :: xs else x :: insertByDateFg r xs

/-- Sort a team's records by date (model of pandas `sort_values('date')`). -/
def sortByDateFg (l : List FgRec) : List FgRec := l.foldr insertByDateFg []

/-- pandas `Series.rolling(w, min_periods=1).sum()`: the window for index i
is the rows max(0, i+1-w) .. i — it INCLUDES the current row i (pandas
windows are closed on the right by default); NaN entries are skipped, and
the result is NaN only when the window holds no non-NaN entry. -/
def rollSumIncl (w : Nat) (vals : List (Option Rat)) : List (Option Rat) :=
  (List.range vals.length).map (fun i =>
    let ws := ((vals.take (i + 1)).drop (i + 1 - w)).filterMap id
    if ws = [] then none else some ws.sum)

/-- `points_last_{window}` column of `FeatureGenerator._add_team_form_features`
(feature_generator.py:81-83): per team, in date order,
`rolling(window, min_periods=1).sum()` of the points column. -/
def pointsLast (w : Nat) (g : List FgRec) : List (Option Rat) :=
  rollSumIncl w ((sortByDateFg g).map pointsOf)

end TactiScore

namespace TactiScore

/-- Stable insertion of a `Row` into a date-sorted list. -/
def insertByDate (r : Row) : List Row → List Row
  | [] => [r]
  | x :: xs => if r.date ≤ x.date then r :: x :: xs else x :: insertByDate r xs

/-- `group = group.sort_values('date')` (data_processing.py:114). -/
def sortByDate (l : List Row) : List Row := l.foldr insertByDate []

/-- `group[available_cols].rolling(3, closed='left').mean()`
(data_processing.py:122) for one column: the window for index i is the up
to 3 rows strictly before i (`closed='left'` excludes the current row);
with `min_periods` left at its default (the window size, 3), any row with
fewer than 3 prior rows gets NaN. -/
def rollClosedLeft3 (vals : List Rat) : List (Option Rat) :=
  (List.range vals.length).map (fun i =>
    if 3 ≤ i then some (((vals.take i).drop (i - 3)).sum / 3) else none)

/-- The NaN-filling step of `calculate_rolling_averages`
(data_processing.py:126-139) for one column: when every rolling value is
NaN the column is filled with the base column's mean
(`group[col].fillna(group[base_col].mean())`, line 131 — the base columns
gf/ga/sh/sot always exist in this schema, so the literal-default branch of
lines 133-137 is unreachable); otherwise NaNs are filled with the mean of
the column's non-NaN rolling values (`group[col].fillna(group[col].mean())`,
line 139). -/
def fillColumn (roll : List (Option Rat)) (baseVals : List Rat) : List Rat :=
  let fill :=
    if roll.all (·.isNone) then baseVals.sum / baseVals.length
    else
      let vs := roll.filterMap id
      vs.sum / vs.length
  roll.map (fun o => o.getD fill)

/-- `group[available_new_cols] = rolling_stats[available_cols]`
(data_processing.py:123): write the four filled rolling columns onto the
date-sorted rows, positionally. -/
def setRolling : List Row → List Rat → List Rat → List Rat → List Rat → List Row
  | r :: rs, a :: as_, b :: bs, c :: cs, d :: ds =>
      { r with gf_rolling := some a, ga_rolling := some b,
               sh_rolling := some c, sot_rolling := some d }
        :: setRolling rs as_ bs cs ds
  | _, _, _, _, _ => []

/-- `calculate_rolling_averages(group, cols, new_cols)`
(data_processing.py:112-141) for the schema at hand: the available stat
columns are exactly gf, ga, sh, sot; sort by date, take the closed-left
rolling(3) mean of each column, fill NaNs per `fillColumn`, and attach the
results as the `*_rolling` columns. -/
def calculate_rolling_averages (g : List Row) : List Row :=
  let s := sortByDate g
  let gfR := fillColumn (rollClosedLeft3 (s.map (·.gf))) (s.map (·.gf))
  let gaR := fillColumn (rollClosedLeft3 (s.map (·.ga))) (s.map (·.ga))
  let shR := fillColumn (rollClosedLeft3 (s.map (·.sh))) (s.map (·.sh))
  let sotR := fillColumn (rollClosedLeft3 (s.map (·.sot))) (s.map (·.sot))
  setRolling s gfR gaR shR sotR

end TactiScore

namespace TactiScore

/-- `{team: idx for idx, team in enumerate(teams)}` (data_processing.py:86):
enumerate a list of (distinct) team names starting at index i. -/
def enumFrom (i : Nat) : List String → List (String × Nat)
  | [] => []
  | t :: ts => (t, i) :: enumFrom (i + 1) ts

/-- Python dict lookup on the enumerated team list (`.map(team_code_dict)`,
data_processing.py:87/93): first matching key's index, NaN (`none`) when the
key is absent. -/
def dictLookup (d : List (String × Nat)) (s : String) : Option Nat :=
  match d with
  | [] => none
  | (t, i) :: rest => if t = s then some i else dictLookup rest s

/-- `teams = sorted(df['team'].unique())` (data_processing.py:85): the
distinct team names in ascending lexicographic order.  (pandas `unique`
keeps first-appearance order and `List.dedup` keeps last occurrences, but
the subsequent sort makes the two agree.) -/
def sortedTeams (df : List Row) : List String :=
  List.insertionSort (fun a b : String => a ≤ b) ((df.map (·.team)).dedup)

/-- Python `int(...)` on a digit string: `none` when the text is empty or
holds a non-digit (signs and surrounding whitespace never occur in the
`HH:MM` time values this is applied to). -/
def digitsToNat? (cs : List Char) : Option Nat :=
  if cs = [] then none
  else cs.foldl (fun acc c =>
    match acc with
    | none => none
    | some n => if c.isDigit then some (n * 10 + (c.toNat - 48)) else none) (some 0)

/-- `df['time'].str.split(':').str[0].astype('int')` for one value
(data_processing.py:98): the integer value of the text before the first
colon, `none` when it is not an integer literal. -/
def parseHour (time : String) : Option Int :=
  (digitsToNat? (time.toList.takeWhile (fun c => c ≠ ':'))).map Int.ofNat

/-- The per-row assignments of `encode_categorical_features`
(data_processing.py:87-108), given the team dictionary and whether the
column-wide hour conversion succeeded: team/opponent codes through the
dict (NaN when absent), venue Home→1 / Away→0 (NaN otherwise), hour from
the time text or the 15 fallback, day-of-week from the date, binary target
(result == 'W'). -/
def encodeRow (dict : List (String × Nat)) (allHoursParse : Bool) (r : Row) : Row :=
  { r with
    team_code := dictLookup dict r.team
    venue_code := if r.venue = "Home" then some 1
                  else if r.venue = "Away" then some 0 else none
    opp_code := dictLookup dict r.opponent
    hour := if allHoursParse then parseHour r.time else some 15
    day_code := some (r.date % 7)
    target := some (if r.result = "W" then 1 else 0) }

/-- `encode_categorical_features(df)` (data_processing.py:82-110).  All
assignments are in-place on the argument frame; the returned table (equal to
the caller's table after the call) is modelled here.  `hour` reproduces the
try/except of lines 96-102: the column-wide `astype('int')` either converts
every row or raises, in which case the whole column is set to 15.
`day_code` is `df['date'].dt.dayofweek` with dates as day indices. -/
def encode_categorical_features (df : List Row) : List Row :=
  df.map (encodeRow (enumFrom 0 (sortedTeams df))
    (df.all (fun r => (parseHour r.time).isSome)))

/-- The rolling stage of `prepare_model_data`:
`df.groupby('team').apply(lambda x: calculate_rolling_averages(...))`
with the group keys in sorted order and the index flattened
(data_processing.py:188-194). -/
def groupbyRolling (enc : List Row) : List Row :=
  (List.insertionSort (fun a b : String => a ≤ b) ((enc.map (·.team)).dedup)).flatMap
    (fun t => calculate_rolling_averages (enc.filter (fun r => r.team = t)))

/-- `prepare_model_data(df)` (data_processing.py:161-207): empty input
returns an empty table (lines 163-169); otherwise encode, then apply the
per-team rolling stage.  In this schema gf/ga/sh/sot are always present,
so the default-column branch of lines 178-183 and the exception branch of
lines 195-205 are not taken. -/
def prepare_model_data (df : List Row) : List Row :=
  if df.isEmpty then [] else groupbyRolling (encode_categorical_features df)

/-- `valid_data = data.dropna(subset=all_predictors + ['target'])`
(model.py:153 and model.py:392) with the standard predictor set
venue_code, opp_code, hour, day_code, gf/ga/sh/sot_rolling: keep only rows
where none of those columns (nor target) is NaN. -/
def dropnaPredictors (rows : List Row) : List Row :=
  rows.filter (fun r =>
    r.venue_code.isSome && r.opp_code.isSome && r.hour.isSome && r.day_code.isSome &&
    r.gf_rolling.isSome && r.ga_rolling.isSome && r.sh_rolling.isSome &&
    r.sot_rolling.isSome && r.target.isSome)

end TactiScore

namespace TactiScore

/-- Gaussian perturbations for one synthetic row: the four draws of
`np.random.normal(0, 0.5, n_samples)` for the gf, ga, sh and sot columns
(data_processing.py:149-151), passed in explicitly. -/
structure Noise where
  dgf : Rat
  dga : Rat
  dsh : Rat
  dsot : Rat
  deriving DecidableEq, Repr, Inhabited

/-- One synthetic row of `augment_data` (data_processing.py:146-157): copy
the sampled row, add the noise to gf/ga/sh/sot, then recompute `result`
from the PERTURBED gf/ga (`'W' if x.gf > x.ga else ('D' if x.gf == x.ga
else 'L')`, line 155).  Every other column is left as sampled. -/
def syntheticRow (src : Row) (nz : Noise) : Row :=
  let p := { src with gf := src.gf + nz.dgf, ga := src.ga + nz.dga,
                      sh := src.sh + nz.dsh, sot := src.sot + nz.dsot }
  { p with result := if p.gf > p.ga then "W" else if p.gf = p.ga then "D" else "L" }

/-- `augment_data(data, n_samples)` (data_processing.py:143-160).
`idxs` is the list of row positions drawn by
`data.sample(n_samples, replace=True)` and `noise` the matching Gaussian
draws; the synthetic rows are appended after the originals
(`pd.concat([data, synthetic_data])`, line 160). -/
def augment_data (data : List Row) (idxs : List Nat) (noise : List Noise) : List Row :=
  data ++ (idxs.zip noise).map (fun p => syntheticRow (data.getD p.1 default) p.2)

/-- Per-row computation of `FeatureGenerator._add_odds_features`
(feature_generator.py:222-231): implied probability = 1/odds for each of
the three prices, total = their sum, normalized = implied / total. -/
def normalizedProbs (home_win_odds draw_odds away_win_odds : Rat) : Rat × Rat × Rat :=
  let implied_home_win_prob := 1 / home_win_odds
  let implied_draw_prob := 1 / draw_odds
  let implied_away_win_prob := 1 / away_win_odds
  let total_implied_prob := implied_home_win_prob + implied_draw_prob + implied_away_win_prob
  (implied_home_win_prob / total_implied_prob,
   implied_draw_prob / total_implied_prob,
   implied_away_win_prob / total_implied_prob)

/-- `db.add(model_version); db.commit()` against the `model_versions` table
(models.py:57-73): `version_name` carries a UNIQUE constraint (models.py:64),
so committing a duplicate name raises an IntegrityError and inserts
nothing.  The metadata table is modelled by its list of version_name keys. -/
def insertModelVersion (db : List String) (name : String) : Except String (List String) :=
  if name ∈ db then
    Except.error "IntegrityError: UNIQUE constraint failed: model_versions.version_name"
  else Except.ok (db ++ [name])

/-- `ModelVersionTracker.register_model` (model_versioning.py:26-103),
restricted to its database effect when called with an explicit
`version_name`.  The try/except of lines 72-103: on success commit and
return the version name; on any exception `db.rollback()` (line 99) leaves
the table unchanged, the error is only printed (line 100), and the
function still returns the version name normally (line 101).  The returned
pair is (metadata table after the call, call outcome); an `Except.error`
outcome would model an exception escaping to the caller — which this
function never produces. -/
def register_model (db : List String) (version_name : String) :
    List String × Except String String :=
  match insertModelVersion db version_name with
  | Except.ok db2 => (db2, Except.ok version_name)
  | Except.error _ => (db, Except.ok version_name)

end TactiScore

namespace TactiScore

/-- An sklearn / xgboost classifier as the model code observes it:
`fitted` is whether `fit` has run (= whether the `classes_` attribute
exists); `probaFn`/`predFn` give the fitted estimator's outputs (their
values are irrelevant while `fitted = false`). -/
structure SkClassifier where
  fitted : Bool
  probaFn : List (List Rat) → List (Rat × Rat)
  predFn : List (List Rat) → List Rat

/-- sklearn's `predict_proba` on a bare estimator: raises NotFittedError
when the model has not been fitted. -/
def SkClassifier.predict_proba (m : SkClassifier) (X : List (List Rat)) :
    Except String (List (Rat × Rat)) :=
  if m.fitted then Except.ok (m.probaFn X) else Except.error "NotFittedError"

/-- sklearn's `predict` on a bare estimator: raises NotFittedError when the
model has not been fitted. -/
def SkClassifier.predictRaw (m : SkClassifier) (X : List (List Rat)) :
    Except String (List Rat) :=
  if m.fitted then Except.ok (m.predFn X) else Except.error "NotFittedError"

/-- An unfitted `RandomForestClassifier(...)` / `XGBClassifier(...)` as
built in the constructors (model.py:12-16, ensemble_model.py:35-49). -/
def SkClassifier.unfitted : SkClassifier :=
  ⟨false, fun _ => [], fun _ => []⟩

/-- `FootballPredictionModel` (model.py:10-43), reduced to the state its
predict methods consult. -/
structure FootballPredictionModel where
  model : SkClassifier

/-- `FootballPredictionModel()` (model.py:11-22): holds an unfitted
RandomForest. -/
def FootballPredictionModel.mkNew : FootballPredictionModel := ⟨SkClassifier.unfitted⟩

/-- `FootballPredictionModel.train` (model.py:24-31): empty X or y is
accepted and returns self unchanged (lines 26-28); otherwise
`self.model.fit(X, y)` replaces the estimator state with a fitted one
(passed in as `fitResult`, since the fitting algorithm itself is an
external library concern). -/
def FootballPredictionModel.train (m : FootballPredictionModel)
    (X : List (List Rat)) (y : List Rat) (fitResult : SkClassifier) :
    FootballPredictionModel :=
  if X.length = 0 ∨ y.length = 0 then m else { m with model := fitResult }

/-- `FootballPredictionModel.predict` (model.py:33-37): without a
`classes_` attribute return `np.zeros(len(X))`, else delegate. -/
def FootballPredictionModel.predict (m : FootballPredictionModel)
    (X : List (List Rat)) : Except String (List Rat) :=
  if m.model.fitted then m.model.predictRaw X
  else Except.ok (List.replicate X.length 0)

/-- `FootballPredictionModel.predict_proba` (model.py:39-43): without a
`classes_` attribute return `[[0.5, 0.5]] * len(X)`, else delegate. -/
def FootballPredictionModel.predict_proba (m : FootballPredictionModel)
    (X : List (List Rat)) : Except String (List (Rat × Rat)) :=
  if m.model.fitted then m.model.predict_proba X
  else Except.ok (List.replicate X.length (1/2, 1/2))

/-- `EnsemblePredictor` (ensemble_model.py:9-69), reduced to the state its
predict methods consult: the two base estimators and the blend weights. -/
structure EnsemblePredictor where
  rf_model : SkClassifier
  xgb_model : SkClassifier
  w1 : Rat
  w2 : Rat

/-- `EnsemblePredictor()` (ensemble_model.py:14-69): both base estimators
unfitted, default weights (0.5, 0.5). -/
def EnsemblePredictor.mkNew : EnsemblePredictor :=
  ⟨SkClassifier.unfitted, SkClassifier.unfitted, 1/2, 1/2⟩

/-- `EnsemblePredictor.train` (ensemble_model.py:71-97): empty X or y
returns self unchanged (lines 79-81); otherwise both estimators are
fitted. -/
def EnsemblePredictor.train (m : EnsemblePredictor) (X : List (List Rat))
    (y : List Rat) (rfFit xgbFit : SkClassifier) : EnsemblePredictor :=
  if X.length = 0 ∨ y.length = 0 then m
  else { m with rf_model := rfFit, xgb_model := xgbFit }

/-- `EnsemblePredictor.predict` (ensemble_model.py:99-117): calls
`self.rf_model.predict_proba(X)[:, 1]` and `self.xgb_model.predict_proba`
directly — there is NO fitted/`classes_` guard in this method — then
blends with the weights and thresholds at 0.5. -/
def EnsemblePredictor.predict (m : EnsemblePredictor) (X : List (List Rat)) :
    Except String (List Nat) := do
  let rf_proba ← m.rf_model.predict_proba X
  let xgb_proba ← m.xgb_model.predict_proba X
  let ensemble_proba := (rf_proba.zip xgb_proba).map
    (fun p => m.w1 * p.1.2 + m.w2 * p.2.2)
  Except.ok (ensemble_proba.map (fun p => if p > 1/2 then 1 else 0))

/-- `EnsemblePredictor.predict_proba` (ensemble_model.py:119-142): when
either base estimator lacks `classes_`, return the `[[0.5, 0.5]] * len(X)`
default (lines 129-131); otherwise the weighted column-wise blend. -/
def EnsemblePredictor.predict_proba (m : EnsemblePredictor)
    (X : List (List Rat)) : Except String (List (Rat × Rat)) :=
  if m.rf_model.fitted = false ∨ m.xgb_model.fitted = false then
    Except.ok (List.replicate X.length (1/2, 1/2))
  else do
    let rf_proba ← m.rf_model.predict_proba X
    let xgb_proba ← m.xgb_model.predict_proba X
    Except.ok ((rf_proba.zip xgb_proba).map
      (fun p => (m.w1 * p.1.1 + m.w2 * p.2.1, m.w1 * p.1.2 + m.w2 * p.2.2)))

/-- A training-input table as `train_prediction_model` /
`train_ensemble_model` see it: the rows plus, for each column those
functions probe with `in data.columns`, whether the column is present.
(`hasRolling` models presence of the four standard `*_rolling` columns
jointly — the only shapes the pipeline produces.)  When a presence flag is
false the corresponding `Option` fields of the rows are meaningless. -/
structure TTable where
  rows : List Row
  hasVenueCode : Bool := true
  hasOppCode : Bool := true
  hasHour : Bool := true
  hasDayCode : Bool := true
  hasTarget : Bool := true
  hasRolling : Bool := true
  deriving DecidableEq, Repr, Inhabited

/-- model.py:114-128 (= model.py:353-367): if no `*_rolling` column exists,
write the four defaults into the caller's table, copying each base column
(gf/ga/sh/sot are present in this schema, so the fixed-number fallback of
line 127 is unreachable). -/
def addMissingRolling (t : TTable) : TTable :=
  if t.hasRolling then t
  else
    { t with
      rows := t.rows.map (fun r =>
        { r with gf_rolling := some r.gf, ga_rolling := some r.ga,
                 sh_rolling := some r.sh, sot_rolling := some r.sot })
      hasRolling := true }

/-- model.py:133-145 (= model.py:372-384): write any missing basic
predictor into the caller's table with its documented default
(venue_code from the venue mapping — venue is present in this schema;
opp_code 0; hour 15; day_code 0). -/
def addMissingBasic (t : TTable) : TTable :=
  let t1 :=
    if t.hasVenueCode then t
    else
      { t with
        rows := t.rows.map (fun r =>
          { r with venue_code := if r.venue = "Home" then some 1
                                 else if r.venue = "Away" then some 0 else none })
        hasVenueCode := true }
  let t2 :=
    if t1.hasOppCode then t1
    else { t1 with rows := t1.rows.map (fun r => { r with opp_code := some 0 })
                   hasOppCode := true }
  let t3 :=
    if t2.hasHour then t2
    else { t2 with rows := t2.rows.map (fun r => { r with hour := some 15 })
                   hasHour := true }
  if t3.hasDayCode then t3
  else { t3 with rows := t3.rows.map (fun r => { r with day_code := some 0 })
                 hasDayCode := true }

/-- model.py:148-150 (= model.py:387-389): create the target column when
missing, `data['result'].map({'W': 1, 'D': 0, 'L': 0})` (NaN for any other
result string; result is present in this schema). -/
def addMissingTarget (t : TTable) : TTable :=
  if t.hasTarget then t
  else
    { t with
      rows := t.rows.map (fun r =>
        { r with target := if r.result = "W" then some 1
                           else if r.result = "D" then some 0
                           else if r.result = "L" then some 0 else none })
      hasTarget := true }

/-- The training-data assembly shared verbatim by `train_prediction_model`
(model.py:110-153) and `train_ensemble_model` (model.py:349-392): write
missing columns into the caller's table, then filter with dropna into a
NEW frame (`valid_data`).  Everything after this point
(`add_advanced_features`, `augment_data`, `train_test_split`, fitting)
operates on fresh frames derived from `valid_data`, so the first component
is exactly the caller's table after either function returns. -/
def assembleTrainingData (t : TTable) : TTable × List Row :=
  let t1 := addMissingTarget (addMissingBasic (addMissingRolling t))
  (t1, dropnaPredictors t1.rows)

/-- Caller's table after `FeatureGenerator.generate_features(df)`
(feature_generator.py:14-73): line 31 takes `features = df.copy()`, and
every subsequent assignment and helper call writes to that copy or to
frames derived from it (`_add_venue_features` and the other helpers return
merged/filtered frames of the copy), so the caller's frame is untouched. -/
def generate_features_argEffect (df : List FgRec) : List FgRec := df

/-- Caller's table after `encode_categorical_features(df)`
(data_processing.py:82-110): every assignment (`df['team_code'] = ...`,
lines 87-108) is executed in place on the argument frame, so the caller
sees the encoded table. -/
def encode_argEffect (df : List Row) : List Row := encode_categorical_features df

/-- Caller's table after `prepare_model_data(df)`
(data_processing.py:161-207): the empty branch (lines 163-169) returns
without touching df; otherwise line 172 calls
`encode_categorical_features(df)`, mutating the caller's frame in place.
The rolling stage then works on per-group copies (groupby hands
`calculate_rolling_averages` copies, whose first statement
`group.sort_values('date')` copies again), so no `*_rolling` column reaches
the caller's frame. -/
def prepare_model_data_argEffect (df : List Row) : List Row :=
  if df.isEmpty then df else encode_categorical_features df

/-- Caller's table after `train_prediction_model(data)` /
`train_ensemble_model(data)` (model.py:79-252 / 303-473): the guard
`if data is None or len(data) == 0` (model.py:92 / 331) returns a default
model BEFORE any column is written, leaving a zero-row caller table
untouched (`data is None` has no table to model); otherwise the shared
assembly writes missing columns in place and nothing else touches
`data`. -/
def train_model_argEffect (t : TTable) : TTable :=
  if t.rows = [] then t else (assembleTrainingData t).1

/-- All columns the train functions probe are present: on such a table the
assembly has nothing to write. -/
def fullyPrepared (t : TTable) : Prop :=
  t.hasVenueCode = true ∧ t.hasOppCode = true ∧ t.hasHour = true ∧
  t.hasDayCode = true ∧ t.hasTarget = true ∧ t.hasRolling = true

/-- C1 evaluation input: team A with a win on day 0 and a loss on day 1. -/
def c1HistWL : List FgRec := [⟨0, "A", "W", 2, 1⟩, ⟨1, "A", "L", 0, 2⟩]

/-- C1 evaluation input: identical to `c1HistWL` strictly before day 1, but
the day-1 record is a win instead of a loss. -/
def c1HistWW : List FgRec := [⟨0, "A", "W", 2, 1⟩, ⟨1, "A", "W", 2, 0⟩]

/-- C1 evaluation input for the `*_rolling` path: four matches, gf
1, 1, 1, 1 in date order. -/
def c1GroupA : List Row :=
  [{ date := 0, team := "A", opponent := "B", venue := "Home", result := "W", gf := 1 },
   { date := 1, team := "A", opponent := "C", venue := "Home", result := "W", gf := 1 },
   { date := 2, team := "A", opponent := "D", venue := "Home", result := "W", gf := 1 },
   { date := 3, team := "A", opponent := "E", venue := "Home", result := "W", gf := 1 }]

/-- C1 evaluation input: identical to `c1GroupA` at day 0, but the later
records (all dated strictly after day 0) have gf 4 instead of 1. -/
def c1GroupB : List Row :=
  [{ date := 0, team := "A", opponent := "B", venue := "Home", result := "W", gf := 1 },
   { date := 1, team := "A", opponent := "C", venue := "Home", result := "W", gf := 4 },
   { date := 2, team := "A", opponent := "D", venue := "Home", result := "W", gf := 4 },
   { date := 3, team := "A", opponent := "E", venue := "Home", result := "W", gf := 4 }]

/-- C4 witness input: a ten-row table. -/
def c4Data : List Row :=
  List.range 10 |>.map (fun i =>
    { date := Int.ofNat i, team := "A", opponent := "B", venue := "Home",
      result := "W", gf := 2, ga := 1 })

/-- C9 witness input: a single original row that carries target 1 (a win). -/
def c9Data : List Row :=
  [{ date := 0, team := "A", opponent := "B", venue := "Home", result := "W",
     gf := 2, ga := 1, target := some 1 }]

/-- C7 witness input: a one-row raw (not yet encoded) table. -/
def c7Df : List Row :=
  [{ date := 1, team := "B", opponent := "C", venue := "Away", result := "L" }]

/-- C10 witness input: one row whose opponent "Z" never appears as a team. -/
def c10Df : List Row :=
  [{ date := 0, team := "A", opponent := "Z", venue := "Home", result := "W" }]

/-- The row of `c10Df` as encoding produces it: team_code 0 (sole team,
sorted position 0), opp_code NaN (opponent unknown). -/
def c10Encoded : Row :=
  { date := 0, team := "A", opponent := "Z", venue := "Home", result := "W",
    team_code := some 0, venue_code := some 1, opp_code := none,
    hour := some 15, day_code := some 0, target := some 1 }

end TactiScore

namespace TactiScore

/-- C2, counterexample: calling `register_model` when a metadata row named
"rf_v1" already exists creates no second row and rolls back, BUT the call
returns the version name normally (`Except.ok`, modelling the `return
version_name` of model_versioning.py:101 inside the except branch) — it
does not surface any error to the caller, contrary to the claim. -/
theorem c2_counterexample_duplicate_returns_normally :
    register_model ["rf_v1"] "rf_v1" = (["rf_v1"], Except.ok "rf_v1") := by
  simp [register_model, insertModelVersion]

/-- C2, amended: a second `register_model` call with an already-registered
`version_name` creates no second metadata row for that name and rolls the
database change back, but the unique-constraint failure is caught and only
logged: the call returns the version name normally, indistinguishable from
a successful registration, instead of surfacing an error to the caller. -/
theorem c2_duplicate_register_rolls_back_and_returns_normally
    (db : List String) (version_name : String) (h : version_name ∈ db) :
    register_model db version_name = (db, Except.ok version_name) := by
  simp [register_model, insertModelVersion, h]

/-- C2, witness: the amended theorem at a concrete database state. -/
theorem c2_witness :
    register_model ["ensemble_v1", "rf_v2"] "rf_v2"
      = (["ensemble_v1", "rf_v2"], Except.ok "rf_v2") :=
  c2_duplicate_register_rolls_back_and_returns_normally
    ["ensemble_v1", "rf_v2"] "rf_v2" (by decide)

/-- C6: for any three odds all greater than 1, the three normalized implied
probabilities produced by `_add_odds_features` sum to 1 (exactly, in the
rational model — in particular within the claimed 1e-9 tolerance). -/
theorem c6_normalized_probs_sum_to_one
    (home_win_odds draw_odds away_win_odds : Rat)
    (hh : 1 < home_win_odds) (hd : 1 < draw_odds) (ha : 1 < away_win_odds) :
    |(normalizedProbs home_win_odds draw_odds away_win_odds).1
      + (normalizedProbs home_win_odds draw_odds away_win_odds).2.1
      + (normalizedProbs home_win_odds draw_odds away_win_odds).2.2 - 1|
      ≤ 1 / 1000000000 := by
  have hh0 : (0:ℚ) < home_win_odds := lt_trans one_pos hh
  have hd0 : (0:ℚ) < draw_odds := lt_trans one_pos hd
  have ha0 : (0:ℚ) < away_win_odds := lt_trans one_pos ha
  have ht : (0:ℚ) < 1 / home_win_odds + 1 / draw_odds + 1 / away_win_odds := by positivity
  have hsum : (normalizedProbs home_win_odds draw_odds away_win_odds).1
      + (normalizedProbs home_win_odds draw_odds away_win_odds).2.1
      + (normalizedProbs home_win_odds draw_odds away_win_odds).2.2 = 1 := by
    simp only [normalizedProbs]
    rw [div_add_div_same, div_add_div_same, div_self (ne_of_gt ht)]
  rw [hsum, sub_self, abs_zero]
  norm_num

/-- C6, witness: odds 2 / 3 / 6 give normalized probabilities summing to 1
within 1e-9. -/
theorem c6_witness :
    |(normalizedProbs 2 3 6).1 + (normalizedProbs 2 3 6).2.1
      + (normalizedProbs 2 3 6).2.2 - 1| ≤ 1 / 1000000000 :=
  c6_normalized_probs_sum_to_one 2 3 6 (by norm_num) (by norm_num) (by norm_num)

/-- C5: behaviour of the untrained models on a one-row feature matrix.
`FootballPredictionModel` returns the documented defaults from both
`predict_proba` (uniform 0.5/0.5, model.py:41-42) and `predict` (zeros,
model.py:35-36), also after `train` on empty input (which leaves the model
untrained, model.py:26-28); `EnsemblePredictor.predict_proba` returns the
uniform default (ensemble_model.py:129-131); but `EnsemblePredictor.predict`
(ensemble_model.py:110) calls the base estimator's `predict_proba` with no
fitted-guard, so on an untrained ensemble — freshly constructed or after
`train` on empty input — it raises sklearn's NotFittedError instead of
returning a neutral default.  This contradicts the claim (and spec §4.5);
the guard present in the sibling method shows the intent. -/
theorem c5_untrained_predict_behaviour :
    FootballPredictionModel.mkNew.predict_proba [[0]] = Except.ok [(1/2, 1/2)]
  ∧ FootballPredictionModel.mkNew.predict [[0]] = Except.ok [0]
  ∧ (FootballPredictionModel.mkNew.train [] [] ⟨true, fun _ => [], fun _ => []⟩).predict_proba
      [[0]] = Except.ok [(1/2, 1/2)]
  ∧ EnsemblePredictor.mkNew.predict_proba [[0]] = Except.ok [(1/2, 1/2)]
  ∧ EnsemblePredictor.mkNew.predict [[0]] = Except.error "NotFittedError"
  ∧ (EnsemblePredictor.mkNew.train [] [] ⟨true, fun _ => [], fun _ => []⟩
      ⟨true, fun _ => [], fun _ => []⟩).predict [[0]] = Except.error "NotFittedError" :=
  ⟨rfl, rfl, rfl, rfl, rfl, rfl⟩

/-- C1: the rolling features are NOT functions of the records strictly
before t.  (i) `points_last_3` (feature_generator.py:81-83 uses
`rolling(window, min_periods=1)`, whose window is closed on the right):
two team histories that agree strictly before day 1 and differ only in the
day-1 record get different `points_last_3` values AT day 1 (3 vs 6) — the
current record's own points (which encode the match result, i.e. the
prediction target) are included.  (ii) the `gf_rolling` column
(data_processing.py:122-139): the closed-left window is right, but the
NaN-fill uses the group-wide mean of the computed rolling values, so
changing only records dated strictly AFTER day 0 changes the day-0 record's
`gf_rolling` (1 vs 3).  Both contradict the claim and spec §3/§8; the
explicit `closed='left'` in data_processing.py:122 and the spec's
"lookahead leak ... must never occur" show the spec is the intent and the
code is the slip. -/
theorem c1_rolling_features_use_current_record :
    pointsLast 3 c1HistWL = [some 3, some 3]
  ∧ pointsLast 3 c1HistWW = [some 3, some 6]
  ∧ (calculate_rolling_averages c1GroupA).map (·.gf_rolling)
      = [some 1, some 1, some 1, some 1]
  ∧ (calculate_rolling_averages c1GroupB).map (·.gf_rolling)
      = [some 3, some 3, some 3, some 3] := by
  refine ⟨?_, ?_, ?_, ?_⟩ <;>
    norm_num +decide [c1HistWL, c1HistWW, c1GroupA, c1GroupB, pointsLast, rollSumIncl,
      sortByDateFg, insertByDateFg, pointsOf, calculate_rolling_averages, sortByDate,
      insertByDate, fillColumn, rollClosedLeft3, setRolling, List.range_succ,
      List.filterMap_cons, List.sum_cons]

/-- C3, counterexample: team A with a win on day 0 and a draw on day 1.
The chronologically first record's `points_last_3` is 3 — its own points,
since the window includes the current record — which is neither the
claimed zero fallback nor any column-mean fill (the points column's mean
here is (3+1)/2 = 2). -/
theorem c3_counterexample_first_record_not_zero :
    pointsLast 3 [⟨0, "A", "W", 3, 0⟩, ⟨1, "A", "D", 1, 1⟩] = [some 3, some 4]
  ∧ (3:ℚ) ≠ 0 ∧ (3:ℚ) ≠ (3 + 1) / 2 := by
  refine ⟨?_, by norm_num, by norm_num⟩
  norm_num +decide [pointsLast, rollSumIncl, sortByDateFg, insertByDateFg, pointsOf,
    List.range_succ, List.filterMap_cons, List.sum_cons]

/-- Inserting a record preserves list length. -/
theorem length_insertByDateFg (r : FgRec) (l : List FgRec) :
    (insertByDateFg r l).length = l.length + 1 := by
  induction l with
  | nil => rfl
  | cons x xs ih =>
    simp only [insertByDateFg]
    split
    · rfl
    · simp [ih]

/-- Sorting by date preserves list length. -/
theorem length_sortByDateFg (l : List FgRec) :
    (sortByDateFg l).length = l.length := by
  induction l with
  | nil => rfl
  | cons x xs ih =>
    show (insertByDateFg x (sortByDateFg xs)).length = xs.length + 1
    rw [length_insertByDateFg, ih]

/-- Every row written by `setRolling` carries all four rolling values. -/
theorem mem_setRolling_isSome (rows : List Row) :
    ∀ (a b c d : List Rat), ∀ r ∈ setRolling rows a b c d,
      r.gf_rolling.isSome ∧ r.ga_rolling.isSome ∧ r.sh_rolling.isSome
        ∧ r.sot_rolling.isSome := by
  induction rows with
  | nil => intro a b c d r hr; simp [setRolling] at hr
  | cons x xs ih =>
    intro a b c d r hr
    match a, b, c, d with
    | [], _, _, _ => simp [setRolling] at hr
    | _ :: _, [], _, _ => simp [setRolling] at hr
    | _ :: _, _ :: _, [], _ => simp [setRolling] at hr
    | _ :: _, _ :: _, _ :: _, [] => simp [setRolling] at hr
    | a0 :: as_, b0 :: bs, c0 :: cs, d0 :: ds =>
      simp only [setRolling, List.mem_cons] at hr
      rcases hr with rfl | hr
      · exact ⟨rfl, rfl, rfl, rfl⟩
      · exact ih as_ bs cs ds r hr

/-- The first entry of an inclusive rolling sum with window at least 1 is
the first value itself (its window is just the current row). -/
theorem rollSumIncl_head (w : Nat) (hw : 1 ≤ w) (v : Option Rat)
    (vs : List (Option Rat)) : (rollSumIncl w (v :: vs)).head? = some v := by
  simp only [rollSumIncl, List.length_cons, List.range_succ_eq_map, List.map_cons,
    List.head?_cons]
  congr 1
  rw [Nat.zero_add, Nat.sub_eq_zero_of_le hw]
  cases v with
  | none => simp
  | some x => simp

/-- C3, amended: a team's chronologically first record does not get a zero
fallback.  (i) In `_add_team_form_features` the window includes the current
record, so the first record's `points_last_w` (any window w ≥ 1) equals the
record's own points.  (ii) In `calculate_rolling_averages` every produced
row — the first included — carries a non-NaN value in all four `*_rolling`
columns, because the fill step (data_processing.py:126-139) replaces the
closed-left NaNs with the mean of the group's computable rolling windows
(or the base column's group mean when no window is computable); so no NaN
propagates into training, but the filled value is a mean, not 0. -/
theorem c3_first_record_rolling_defaults
    (g : List FgRec) (hg : g ≠ []) (w : Nat) (hw : 1 ≤ w) :
    (pointsLast w g).head? = ((sortByDateFg g).head?).map pointsOf
  ∧ ∀ (rows : List Row), ∀ r ∈ calculate_rolling_averages rows,
      r.gf_rolling.isSome ∧ r.ga_rolling.isSome ∧ r.sh_rolling.isSome
        ∧ r.sot_rolling.isSome := by
  constructor
  · have hlen : (sortByDateFg g).length = g.length := length_sortByDateFg g
    obtain ⟨r0, rest, hs⟩ : ∃ r0 rest, sortByDateFg g = r0 :: rest := by
      cases h : sortByDateFg g with
      | nil =>
        rw [h] at hlen
        exact absurd (List.length_eq_zero.mp hlen.symm) hg
      | cons r0 rest => exact ⟨r0, rest, rfl⟩
    rw [pointsLast, hs]
    simp only [List.map_cons, List.head?_cons, Option.map_some]
    exact rollSumIncl_head w hw (pointsOf r0) (rest.map pointsOf)
  · intro rows r hr
    exact mem_setRolling_isSome _ _ _ _ _ r hr

/-- C3, witness: the amended theorem at a concrete one-record history (a
draw on day 5), plus the evaluated conclusion: the first record's
`points_last_3` is its own single point. -/
theorem c3_witness :
    ((pointsLast 3 [⟨5, "B", "D", 1, 1⟩]).head?
        = ((sortByDateFg [⟨5, "B", "D", 1, 1⟩]).head?).map pointsOf)
  ∧ pointsLast 3 [⟨5, "B", "D", 1, 1⟩] = [some 1] := by
  refine ⟨(c3_first_record_rolling_defaults [⟨5, "B", "D", 1, 1⟩] (by decide) 3
    (by decide)).1, ?_⟩
  norm_num +decide [pointsLast, rollSumIncl, sortByDateFg, insertByDateFg, pointsOf,
    List.range_succ, List.filterMap_cons, List.sum_cons]

/-- A synthetic row's recomputed result is consistent with its own
(perturbed) gf/ga values. -/
theorem syntheticRow_result_consistent (src : Row) (nz : Noise) :
    ((syntheticRow src nz).gf > (syntheticRow src nz).ga →
        (syntheticRow src nz).result = "W")
  ∧ ((syntheticRow src nz).gf < (syntheticRow src nz).ga →
        (syntheticRow src nz).result = "L")
  ∧ ((syntheticRow src nz).gf = (syntheticRow src nz).ga →
        (syntheticRow src nz).result = "D") := by
  show (src.gf + nz.dgf > src.ga + nz.dga →
          (if src.gf + nz.dgf > src.ga + nz.dga then "W"
           else if src.gf + nz.dgf = src.ga + nz.dga then "D" else "L") = "W")
    ∧ (src.gf + nz.dgf < src.ga + nz.dga →
          (if src.gf + nz.dgf > src.ga + nz.dga then "W"
           else if src.gf + nz.dgf = src.ga + nz.dga then "D" else "L") = "L")
    ∧ (src.gf + nz.dgf = src.ga + nz.dga →
          (if src.gf + nz.dgf > src.ga + nz.dga then "W"
           else if src.gf + nz.dgf = src.ga + nz.dga then "D" else "L") = "D")
  split_ifs with h1 h2
  · exact ⟨fun _ => rfl, fun hlt => absurd hlt (not_lt_of_gt h1),
      fun heq => absurd heq (ne_of_gt h1)⟩
  · exact ⟨fun hgt => absurd hgt h1,
      fun hlt => absurd hlt (by rw [h2]; exact lt_irrefl _), fun _ => rfl⟩
  · exact ⟨fun hgt => absurd hgt h1, fun _ => rfl, fun heq => absurd heq h2⟩

/-- C4: for any nonempty table and any draw of sample positions and noise
(one of each per requested synthetic row, positions in range as
`sample(..., replace=True)` guarantees), `augment_data` returns exactly
(original row count) + (requested count) rows, the original rows appear
first and unchanged, and every synthetic row's result is W when its
perturbed gf exceeds its perturbed ga, L when it is smaller, D when they
are equal. -/
theorem c4_augment_data_shape_and_results
    (data : List Row) (idxs : List Nat) (noise : List Noise)
    (hne : data ≠ []) (hlen : idxs.length = noise.length)
    (hidx : ∀ i ∈ idxs, i < data.length) :
    (augment_data data idxs noise).length = data.length + idxs.length
  ∧ (augment_data data idxs noise).take data.length = data
  ∧ ∀ r ∈ (augment_data data idxs noise).drop data.length,
      (r.gf > r.ga → r.result = "W") ∧ (r.gf < r.ga → r.result = "L")
    ∧ (r.gf = r.ga → r.result = "D") := by
  refine ⟨?_, ?_, ?_⟩
  · simp [augment_data, List.length_zip, hlen]
  · simp [augment_data, List.take_left]
  · intro r hr
    rw [augment_data, List.drop_left] at hr
    simp only [List.mem_map] at hr
    obtain ⟨p, _, rfl⟩ := hr
    exact syntheticRow_result_consistent _ _

/-- C4, witness: the theorem at the ten-row table with 50 requested
synthetic rows — the result has exactly 60 rows and starts with the
original ten. -/
theorem c4_witness :
    (augment_data c4Data (List.replicate 50 0) (List.replicate 50 ⟨0, 0, 0, 0⟩)).length = 60
  ∧ (augment_data c4Data (List.replicate 50 0)
      (List.replicate 50 ⟨0, 0, 0, 0⟩)).take c4Data.length = c4Data := by
  have h := c4_augment_data_shape_and_results c4Data (List.replicate 50 0)
    (List.replicate 50 ⟨0, 0, 0, 0⟩) (by decide) (by decide) (by decide)
  exact ⟨h.1.trans (by decide), h.2.1⟩

/-- Element j of the synthetic-row block, via positional defaults. -/
theorem zipMap_getD (f : Nat × Noise → Row) :
    ∀ (idxs : List Nat) (noise : List Noise) (j : Nat), j < idxs.length →
      idxs.length = noise.length →
      ((idxs.zip noise).map f).getD j default
        = f (idxs.getD j 0, noise.getD j default) := by
  intro idxs
  induction idxs with
  | nil => intro noise j hj _; simp at hj
  | cons i is ih =>
    intro noise j hj hlen
    cases noise with
    | nil => simp at hlen
    | cons n ns =>
      cases j with
      | zero => simp
      | succ j =>
        simp only [List.zip_cons_cons, List.map_cons, List.getD_cons_succ]
        exact ih ns j (Nat.lt_of_succ_lt_succ hj)
          (Nat.succ_injective (by simpa using hlen))

/-- C9: synthetic row j of `augment_data` agrees with the row it was
sampled from on EVERY column other than gf, ga, sh, sot and result — in
particular an existing `target` value is copied unchanged, even when the
recomputed result would imply a different target (`augment_data` never
touches target; in the training pipeline, model.py:148-159, the target
column is created before augmentation runs). -/
theorem c9_augment_preserves_other_columns
    (data : List Row) (idxs : List Nat) (noise : List Noise) (j : Nat)
    (hj : j < idxs.length) (hlen : idxs.length = noise.length) :
    (let syn := ((augment_data data idxs noise).drop data.length).getD j default
     let src := data.getD (idxs.getD j 0) default
     { syn with gf := src.gf, ga := src.ga, sh := src.sh, sot := src.sot,
                result := src.result } = src) := by
  rw [augment_data, List.drop_left,
    zipMap_getD (fun p => syntheticRow (data.getD p.1 default) p.2) idxs noise j hj hlen]
  rfl

/-- C9, witness: sampling the row with noise −2 on gf gives a synthetic row
whose recomputed result is "L" yet whose target is still 1 (and all other
columns are those of the sampled row). -/
theorem c9_witness :
    (let syn := ((augment_data c9Data [0] [⟨-2, 0, 0, 0⟩]).drop c9Data.length).getD 0 default
     let src := c9Data.getD ([0].getD 0 0) default
     { syn with gf := src.gf, ga := src.ga, sh := src.sh, sot := src.sot,
                result := src.result } = src)
  ∧ (((augment_data c9Data [0] [⟨-2, 0, 0, 0⟩]).drop c9Data.length).getD 0 default).target
      = some 1
  ∧ (((augment_data c9Data [0] [⟨-2, 0, 0, 0⟩]).drop c9Data.length).getD 0 default).result
      = "L" := by
  refine ⟨c9_augment_preserves_other_columns c9Data [0] [⟨-2, 0, 0, 0⟩] 0
    (by decide) (by decide), ?_, ?_⟩ <;>
    norm_num [augment_data, syntheticRow, c9Data]

/-- Looking a name up in the enumerated dictionary: present names map to
their position. -/
theorem dictLookup_enumFrom_mem (s : String) :
    ∀ (ts : List String) (i : Nat), s ∈ ts →
      ∃ k, dictLookup (enumFrom i ts) s = some (i + k) ∧ ts.get? k = some s := by
  intro ts
  induction ts with
  | nil => intro i h; simp at h
  | cons t ts ih =>
    intro i h
    by_cases ht : t = s
    · exact ⟨0, by simp [enumFrom, dictLookup, ht], by simp [ht]⟩
    · have hs : s ∈ ts := by
        rcases List.mem_cons.mp h with h1 | h1
        · exact absurd h1.symm ht
        · exact h1
      obtain ⟨k, hk1, hk2⟩ := ih (i + 1) hs
      refine ⟨k + 1, ?_, by simpa using hk2⟩
      simp only [enumFrom, dictLookup, if_neg ht, hk1]
      congr 1
      omega

/-- Looking a name up in the enumerated dictionary: absent names map to
NaN. -/
theorem dictLookup_enumFrom_not_mem (s : String) :
    ∀ (ts : List String) (i : Nat), s ∉ ts → dictLookup (enumFrom i ts) s = none := by
  intro ts
  induction ts with
  | nil => intro i _; rfl
  | cons t ts ih =>
    intro i h
    have ht : t ≠ s := fun e => h (e ▸ List.mem_cons_self t ts)
    simp only [enumFrom, dictLookup, if_neg ht]
    exact ih (i + 1) (fun hs => h (List.mem_cons_of_mem t hs))

/-- Encoding does not change the team column. -/
theorem encode_map_team (df : List Row) :
    (encode_categorical_features df).map (·.team) = df.map (·.team) := by
  simp only [encode_categorical_features, List.map_map]
  rfl

/-- Encoding does not change the time column, hence not whether every hour
parses. -/
theorem encode_allHours (df : List Row) :
    (encode_categorical_features df).all (fun r => (parseHour r.time).isSome)
      = df.all (fun r => (parseHour r.time).isSome) := by
  simp only [encode_categorical_features, List.all_map]
  rfl

/-- The sorted team list of an encoded table is that of the original. -/
theorem sortedTeams_encode (df : List Row) :
    sortedTeams (encode_categorical_features df) = sortedTeams df := by
  unfold sortedTeams
  rw [encode_map_team]

/-- Re-encoding an already encoded table rewrites every derived column
with the same value: `encode_categorical_features` is idempotent. -/
theorem encode_idempotent (df : List Row) :
    encode_categorical_features (encode_categorical_features df)
      = encode_categorical_features df := by
  calc encode_categorical_features (encode_categorical_features df)
      = (encode_categorical_features df).map
          (encodeRow (enumFrom 0 (sortedTeams (encode_categorical_features df)))
            ((encode_categorical_features df).all
              (fun r => (parseHour r.time).isSome))) := rfl
    _ = (encode_categorical_features df).map
          (encodeRow (enumFrom 0 (sortedTeams df))
            (df.all (fun r => (parseHour r.time).isSome))) := by
        rw [sortedTeams_encode, encode_allHours]
    _ = df.map
          ((encodeRow (enumFrom 0 (sortedTeams df))
              (df.all (fun r => (parseHour r.time).isSome)))
            ∘ (encodeRow (enumFrom 0 (sortedTeams df))
              (df.all (fun r => (parseHour r.time).isSome)))) := by
        rw [encode_categorical_features, List.map_map]
    _ = encode_categorical_features df := rfl

/-- Every encoded row carries a team code (its team is in the dictionary). -/
theorem encode_team_code_isSome (df : List Row) :
    ∀ r ∈ encode_categorical_features df, r.team_code.isSome := by
  intro r hr
  simp only [encode_categorical_features, List.mem_map] at hr
  obtain ⟨x, hx, rfl⟩ := hr
  show (dictLookup (enumFrom 0 (sortedTeams df)) x.team).isSome
  have hmem : x.team ∈ sortedTeams df := by
    unfold sortedTeams
    rw [(List.perm_insertionSort _ _).mem_iff, List.mem_dedup]
    exact List.mem_map_of_mem _ hx
  obtain ⟨k, hk, _⟩ := dictLookup_enumFrom_mem x.team (sortedTeams df) 0 hmem
  rw [hk]
  rfl

/-- C8: `prepare_model_data` is a deterministic pure function of its input
table (the embedding carries no other state), and even running it twice in
sequence on the same aliased frame — the second run receiving the caller's
table as the first run left it, i.e. with the encoded columns written in
place — produces the identical output table, because re-encoding
overwrites every derived column with the same value computed from the
unchanged base columns and the rolling stage reads only base columns. -/
theorem c8_prepare_model_data_idempotent (df : List Row) :
    prepare_model_data (prepare_model_data_argEffect df) = prepare_model_data df
  ∧ prepare_model_data_argEffect (prepare_model_data_argEffect df)
      = prepare_model_data_argEffect df := by
  cases hE : df.isEmpty with
  | true =>
    have : df = [] := List.isEmpty_iff.mp hE
    subst this
    exact ⟨rfl, rfl⟩
  | false =>
    have hAE : prepare_model_data_argEffect df = encode_categorical_features df := by
      simp [prepare_model_data_argEffect, hE]
    have hEncE : (encode_categorical_features df).isEmpty = false := by
      cases df with
      | nil => simp at hE
      | cons a l => rfl
    constructor
    · rw [hAE, prepare_model_data, if_neg (by rw [hEncE]; exact Bool.false_ne_true),
        encode_idempotent, prepare_model_data, if_neg (by rw [hE]; exact Bool.false_ne_true)]
    · rw [hAE, prepare_model_data_argEffect, if_neg (by rw [hEncE]; exact Bool.false_ne_true),
        encode_idempotent]

/-- C7, counterexample: `encode_categorical_features` mutates the table it
receives — after the call the caller's one-row table has gained the encoded
columns (team_code etc.), so it is no longer equal to the table passed in. -/
theorem c7_counterexample_encode_mutates_argument :
    encode_argEffect
        [{ date := 0, team := "A", opponent := "A", venue := "Home", result := "W" }]
      ≠ [{ date := 0, team := "A", opponent := "A", venue := "Home", result := "W" }] := by
  decide

/-- The assembly step always produces a table with a target column
(writing it when absent). -/
theorem assemble_hasTarget (t : TTable) :
    ((assembleTrainingData t).1).hasTarget = true := by
  by_cases h : (addMissingBasic (addMissingRolling t)).hasTarget
  · simp [assembleTrainingData, addMissingTarget, h]
  · simp [assembleTrainingData, addMissingTarget, h]

/-- C7, amended: not every pipeline stage leaves the caller's table
unchanged.  `generate_features` copies its input and never mutates the
caller's frame; but `encode_categorical_features` writes the encoded
columns into the caller's table in place (so any table not already
carrying them is changed), `prepare_model_data` on nonempty input does the
same through its call to `encode_categorical_features`, and
`train_prediction_model` / `train_ensemble_model` write missing rolling,
basic-predictor and target columns into the caller's table — leaving a
fully-prepared table unchanged, leaving a zero-row table unchanged too
(the `len(data) == 0` guard returns a default model before any column is
written), and mutating a nonempty table whenever its target column is
absent. -/
theorem c7_argument_mutation :
    (∀ df : List FgRec, generate_features_argEffect df = df)
  ∧ (∀ (df : List Row) (r : Row), r ∈ df → r.team_code = none →
        encode_argEffect df ≠ df)
  ∧ (∀ (df : List Row) (r : Row), r ∈ df → r.team_code = none →
        prepare_model_data_argEffect df ≠ df)
  ∧ (∀ t : TTable, fullyPrepared t → train_model_argEffect t = t)
  ∧ (∀ t : TTable, t.rows = [] → train_model_argEffect t = t)
  ∧ (∀ t : TTable, t.rows ≠ [] → t.hasTarget = false →
        train_model_argEffect t ≠ t) := by
  refine ⟨fun _ => rfl, ?_, ?_, ?_, ?_, ?_⟩
  · intro df r hr hnone heq
    have hmem : r ∈ encode_categorical_features df := by
      rw [show encode_categorical_features df = df from heq]
      exact hr
    have := encode_team_code_isSome df r hmem
    rw [hnone] at this
    exact Bool.false_ne_true this
  · intro df r hr hnone heq
    have hne : df.isEmpty = false := by
      cases df with
      | nil => simp at hr
      | cons a l => rfl
    rw [prepare_model_data_argEffect, if_neg (by rw [hne]; exact Bool.false_ne_true)] at heq
    have hmem : r ∈ encode_categorical_features df := by
      rw [show encode_categorical_features df = df from heq]
      exact hr
    have := encode_team_code_isSome df r hmem
    rw [hnone] at this
    exact Bool.false_ne_true this
  · intro t ht
    obtain ⟨h1, h2, h3, h4, h5, h6⟩ := ht
    by_cases hrows : t.rows = []
    · simp [train_model_argEffect, hrows]
    · simp [train_model_argEffect, hrows, assembleTrainingData, addMissingRolling,
        addMissingBasic, addMissingTarget, h1, h2, h3, h4, h5, h6]
  · intro t ht
    simp [train_model_argEffect, ht]
  · intro t hrows ht heq
    rw [train_model_argEffect, if_neg hrows] at heq
    have := assemble_hasTarget t
    rw [heq, ht] at this
    exact Bool.false_ne_true this

/-- C7, witness: the amended theorem at concrete inputs — the raw one-row
table is mutated by encode and by prepare; a fully-prepared training table
and a zero-row table are left unchanged by the train functions, while a
nonempty one lacking the target column is mutated. -/
theorem c7_witness :
    encode_argEffect c7Df ≠ c7Df
  ∧ prepare_model_data_argEffect c7Df ≠ c7Df
  ∧ train_model_argEffect ⟨c7Df, true, true, true, true, true, true⟩
      = ⟨c7Df, true, true, true, true, true, true⟩
  ∧ train_model_argEffect ⟨[], true, true, true, true, false, true⟩
      = ⟨[], true, true, true, true, false, true⟩
  ∧ train_model_argEffect ⟨c7Df, true, true, true, true, false, true⟩
      ≠ ⟨c7Df, true, true, true, true, false, true⟩ :=
  ⟨c7_argument_mutation.2.1 c7Df
      { date := 1, team := "B", opponent := "C", venue := "Away", result := "L" }
      (by decide) (by decide),
   c7_argument_mutation.2.2.1 c7Df
      { date := 1, team := "B", opponent := "C", venue := "Away", result := "L" }
      (by decide) (by decide),
   c7_argument_mutation.2.2.2.1 ⟨c7Df, true, true, true, true, true, true⟩
      ⟨rfl, rfl, rfl, rfl, rfl, rfl⟩,
   c7_argument_mutation.2.2.2.2.1 ⟨[], true, true, true, true, false, true⟩ rfl,
   c7_argument_mutation.2.2.2.2.2 ⟨c7Df, true, true, true, true, false, true⟩
      (by decide) rfl⟩

/-- C10: (i) the sorted team list is sorted; (ii) every encoded row's
team_code is the position of its team name in that sorted list of distinct
team names (codes 0..n-1 in sorted order); (iii) a row whose opponent
never appears in the team column gets opp_code NaN; (iv) the dropna filter
over the predictors (model.py:153) removes every row whose opp_code is
NaN before training. -/
theorem c10_team_codes_and_unknown_opponents :
    (∀ df : List Row, (sortedTeams df).Sorted (fun a b => a ≤ b))
  ∧ (∀ (df : List Row) (r : Row), r ∈ encode_categorical_features df →
        ∃ k, r.team_code = some k ∧ (sortedTeams df).get? k = some r.team)
  ∧ (∀ (df : List Row) (r : Row), r ∈ encode_categorical_features df →
        r.opponent ∉ df.map (·.team) → r.opp_code = none)
  ∧ (∀ (rows : List Row) (r : Row), r.opp_code = none →
        r ∉ dropnaPredictors rows) := by
  refine ⟨?_, ?_, ?_, ?_⟩
  · intro df
    exact List.sorted_insertionSort _ _
  · intro df r hr
    simp only [encode_categorical_features, List.mem_map] at hr
    obtain ⟨x, hx, rfl⟩ := hr
    have hmem : x.team ∈ sortedTeams df := by
      unfold sortedTeams
      rw [(List.perm_insertionSort _ _).mem_iff, List.mem_dedup]
      exact List.mem_map_of_mem _ hx
    obtain ⟨k, hk1, hk2⟩ := dictLookup_enumFrom_mem x.team (sortedTeams df) 0 hmem
    refine ⟨k, ?_, hk2⟩
    show dictLookup (enumFrom 0 (sortedTeams df)) x.team = some k
    rw [hk1, Nat.zero_add]
  · intro df r hr hop
    simp only [encode_categorical_features, List.mem_map] at hr
    obtain ⟨x, hx, rfl⟩ := hr
    have hnot : x.opponent ∉ sortedTeams df := by
      intro hmem
      apply hop
      show x.opponent ∈ df.map (·.team)
      unfold sortedTeams at hmem
      rw [(List.perm_insertionSort _ _).mem_iff, List.mem_dedup] at hmem
      exact hmem
    exact dictLookup_enumFrom_not_mem x.opponent (sortedTeams df) 0 hnot
  · intro rows r hnone hmem
    rw [dropnaPredictors, List.mem_filter] at hmem
    simp [hnone] at hmem

/-- C10, witness: the theorem at the concrete one-row table. -/
theorem c10_witness :
    (∃ k, c10Encoded.team_code = some k
        ∧ (sortedTeams c10Df).get? k = some c10Encoded.team)
  ∧ c10Encoded.opp_code = none
  ∧ c10Encoded ∉ dropnaPredictors (encode_categorical_features c10Df) :=
  ⟨c10_team_codes_and_unknown_opponents.2.1 c10Df c10Encoded (by decide),
   c10_team_codes_and_unknown_opponents.2.2.1 c10Df c10Encoded (by decide) (by decide),
   c10_team_codes_and_unknown_opponents.2.2.2 (encode_categorical_features c10Df)
     c10Encoded (by decide)⟩

end TactiScore
